import Mathlib

/-!
Verification of `src/test-fixtures/sample-repo/src/ml_model.py`.

The source defines a single Python class `TransformerModel` with a
constructor storing two attributes (`d_model`, defaulted to 512, and
`vocab_size`) and a method `forward(x)` whose body is `pass`.

Python values are untyped, so model inputs and stored attributes as an
inductive `PyValue`. Python code can raise exceptions, so every operation
is embedded as returning `Except PyError _`; a method that may mutate
`self` returns the new object state alongside its return value. The
source never raises and never mutates, which the embedding reflects by
always producing `Except.ok`.
-/

namespace MlModel

/-- A Python runtime value, as far as this file needs one: `None`
(returned by `forward`), integers (the intended type of `vocab_size` and
`d_model`), and strings (a stand-in for any other object passed in). -/
inductive PyValue where
  | none : PyValue
  | int : Int → PyValue
  | str : String → PyValue
deriving DecidableEq, Repr

/-- A Python exception. The source raises none, but the embedding keeps
the error channel so that "does not raise" is a statement, not a type. -/
inductive PyError where
  | exn : String → PyError
deriving DecidableEq, Repr

/-- The object state of `TransformerModel`: the two attributes which
`__init__` stores on `self`. -/
structure TransformerModel where
  d_model : PyValue
  vocab_size : PyValue
deriving DecidableEq, Repr

/-- `TransformerModel.__init__` (ml_model.py lines 18-22): stores
`d_model` (defaulted to `512` when the argument is omitted, hence the
`Option`) and `vocab_size` on the instance. The body performs no other
action and raises nothing. -/
def construct (vocab_size : PyValue) (d_model : Option PyValue) :
    Except PyError TransformerModel :=
  Except.ok ⟨d_model.getD (PyValue.int 512), vocab_size⟩

/-- `TransformerModel.forward` (ml_model.py lines 24-27): the body is
`pass`, so the call returns Python `None`, leaves `self` unchanged and
raises nothing. The result pairs the (unchanged) object state with the
return value. -/
def forward (m : TransformerModel) (_x : PyValue) :
    Except PyError (TransformerModel × PyValue) :=
  Except.ok (m, PyValue.none)

/-- Runs a finite sequence of `forward` calls on an object, threading the
object state and propagating any exception. -/
def runForwards (m : TransformerModel) (xs : List PyValue) :
    Except PyError TransformerModel :=
  match xs with
  | [] => Except.ok m
  | x :: rest =>
    match forward m x with
    | Except.ok r => runForwards r.1 rest
    | Except.error e => Except.error e

/-- Any finite sequence of `forward` calls succeeds and returns the
object state unchanged. -/
theorem runForwards_eq (m : TransformerModel) (xs : List PyValue) :
    runForwards m xs = Except.ok m := by
  induction xs with
  | nil => rfl
  | cons x rest ih => simpa [runForwards, forward] using ih

/-- C1: constructing `TransformerModel` with `vocab_size = V` and the
`d_model` argument omitted succeeds and yields an object whose stored
`d_model` equals 512 and whose stored `vocab_size` equals `V`. -/
theorem construct_default_fields (V : PyValue) :
    ∃ m, construct V Option.none = Except.ok m ∧
      m.d_model = PyValue.int 512 ∧ m.vocab_size = V :=
  ⟨⟨PyValue.int 512, V⟩, rfl, rfl, rfl⟩

/-- C2: constructing `TransformerModel` with `vocab_size = V` and an
explicit `d_model = D` succeeds and yields an object whose stored
`d_model` equals `D` and whose stored `vocab_size` equals `V`. -/
theorem construct_explicit_fields (V D : PyValue) :
    ∃ m, construct V (Option.some D) = Except.ok m ∧
      m.d_model = D ∧ m.vocab_size = V :=
  ⟨⟨D, V⟩, rfl, rfl, rfl⟩

/-- C3: for every constructed object and every input `x`, `forward x`
raises no error and its return value is Python `None`. -/
theorem forward_no_raise_returns_none (m : TransformerModel) (x : PyValue) :
    ∃ r, forward m x = Except.ok r ∧ r.2 = PyValue.none :=
  ⟨(m, PyValue.none), rfl, rfl⟩

/-- C4: construction succeeds for every pair of argument values, with no
precondition, and its only effect is storing the two fields: the stored
`vocab_size` is the argument and the stored `d_model` is the argument
when given, 512 otherwise. -/
theorem construct_never_fails (V : PyValue) (dOpt : Option PyValue) :
    ∃ m, construct V dOpt = Except.ok m ∧
      m.vocab_size = V ∧ m.d_model = dOpt.getD (PyValue.int 512) :=
  ⟨⟨dOpt.getD (PyValue.int 512), V⟩, rfl, rfl, rfl⟩

/-- C5: calling `forward x` leaves the object's state unchanged: the
stored `d_model` and `vocab_size` after the call equal their values
before the call. -/
theorem forward_frame (m : TransformerModel) (x : PyValue)
    (r : TransformerModel × PyValue) (h : forward m x = Except.ok r) :
    r.1.d_model = m.d_model ∧ r.1.vocab_size = m.vocab_size := by
  have hr : r = (m, PyValue.none) := by
    simpa [forward] using h.symm
  simp [hr]

/-- Witness for C5 at a concrete object and input. -/
theorem forward_frame_witness :
    ((TransformerModel.mk (PyValue.int 512) (PyValue.int 30000),
        PyValue.none) : TransformerModel × PyValue).1.d_model =
      (TransformerModel.mk (PyValue.int 512) (PyValue.int 30000)).d_model ∧
    ((TransformerModel.mk (PyValue.int 512) (PyValue.int 30000),
        PyValue.none) : TransformerModel × PyValue).1.vocab_size =
      (TransformerModel.mk (PyValue.int 512) (PyValue.int 30000)).vocab_size :=
  forward_frame (TransformerModel.mk (PyValue.int 512) (PyValue.int 30000))
    (PyValue.int 3)
    (TransformerModel.mk (PyValue.int 512) (PyValue.int 30000), PyValue.none)
    rfl

/-- C6: after construction with any arguments, any finite sequence of
`forward` calls (the only operation) leaves the stored `d_model` and
`vocab_size` equal to the values fixed at construction time: the object
is never mutated. -/
theorem never_mutated (V : PyValue) (dOpt : Option PyValue)
    (xs : List PyValue) :
    ∃ m, construct V dOpt = Except.ok m ∧ runForwards m xs = Except.ok m :=
  ⟨⟨dOpt.getD (PyValue.int 512), V⟩, rfl,
    runForwards_eq ⟨dOpt.getD (PyValue.int 512), V⟩ xs⟩

/-- C7: construction and `forward` are deterministic: equal constructor
arguments yield equal results, and equal objects with equal inputs yield
equal `forward` results. -/
theorem deterministic (v1 v2 : PyValue) (d1 d2 : Option PyValue)
    (m1 m2 : TransformerModel) (x1 x2 : PyValue)
    (hv : v1 = v2) (hd : d1 = d2) (hm : m1 = m2) (hx : x1 = x2) :
    construct v1 d1 = construct v2 d2 ∧ forward m1 x1 = forward m2 x2 := by
  subst hv; subst hd; subst hm; subst hx
  exact ⟨rfl, rfl⟩

/-- Witness for C7 at concrete equal arguments. -/
theorem deterministic_witness :
    construct (PyValue.int 30000) (Option.some (PyValue.int 256)) =
      construct (PyValue.int 30000) (Option.some (PyValue.int 256)) ∧
    forward (TransformerModel.mk (PyValue.int 256) (PyValue.int 30000))
        (PyValue.int 5) =
      forward (TransformerModel.mk (PyValue.int 256) (PyValue.int 30000))
        (PyValue.int 5) :=
  deterministic (PyValue.int 30000) (PyValue.int 30000)
    (Option.some (PyValue.int 256)) (Option.some (PyValue.int 256))
    (TransformerModel.mk (PyValue.int 256) (PyValue.int 30000))
    (TransformerModel.mk (PyValue.int 256) (PyValue.int 30000))
    (PyValue.int 5) (PyValue.int 5) rfl rfl rfl rfl

/-- C8: the result of `forward` depends neither on the model's
configuration nor on its input: any two objects and any two inputs give
the same `forward` return value. -/
theorem forward_constant (m1 m2 : TransformerModel) (x1 x2 : PyValue) :
    Except.map Prod.snd (forward m1 x1) = Except.map Prod.snd (forward m2 x2) :=
  rfl

/-- C9: `forward` is idempotent in effect: calling it a second time from
the state the first call produced yields the same state and the same
return value as the single call. -/
theorem forward_idempotent (m : TransformerModel) (x : PyValue) :
    Except.bind (forward m x) (fun r => forward r.1 x) = forward m x :=
  rfl

end MlModel
